import Mathlib

/-!
Verification of the golf-swing result backend (FastAPI):
shallow embedding of `app/routers/result_router.py` and the parts of
`app/db_client.py` it drives, plus theorems settling the spec claims.

External collaborators (S3 presigned-URL generation, the MariaDB row for a
job, JWT identity resolution, the live WebSocket registry) are modelled as
explicit parameters: a collaborator call that may raise is an `Option`
result, with `none` standing for the raised exception.
-/

namespace GolfSwing

/-- Python truthiness for an optional string value (`None` and `""` are falsy). -/
def pyTruthy : Option String → Bool
  | none => false
  | some s => s ≠ ""

/-- Python `a or b` on optional strings (used for `data.get("s3_result_path") or data.get("s3_result_key")`). -/
def pyOr (a b : Option String) : Option String :=
  if pyTruthy a then a else b

/-- Python truthiness for an optional list value (`None` and `[]` are falsy). -/
def pathsTruthy : Option (List String) → Bool
  | none => false
  | some l => l ≠ []

/-- Value stored in the DB column `s3_result_paths`: the webhook writes a JSON
string, but the status endpoint also tolerates an already-decoded list
(`_json.loads(s3_paths) if isinstance(s3_paths, str) else s3_paths`). -/
inductive StoredPaths where
  | str (s : String)
  | list (l : List String)
deriving DecidableEq, Repr

/-- Python truthiness of the stored `s3_result_paths` DB value. -/
def storedTruthy : Option StoredPaths → Bool
  | none => false
  | some (.str s) => s ≠ ""
  | some (.list l) => l ≠ []

/-- One row of the upload table, as surfaced by `DBClient.get_upload_record`. -/
structure Record where
  user_id : Option String
  status : Option String
  s3_result_path : Option String
  s3_result_paths : Option StoredPaths
deriving DecidableEq, Repr

/-- Models Python `json.dumps` on a list of strings (as produced by the
webhook for `s3_result_paths`; the modelled inputs need no escaping). -/
def jsonDumps (l : List String) : String :=
  "[" ++ String.intercalate ", " (l.map fun s => "\"" ++ s ++ "\"") ++ "]"

/-! ## Completion webhook: `handle_webhook` (result_router.py lines 169-243) -/

/-- Parsed JSON body of the RunPod completion callback. -/
structure WebhookBody where
  job_id : Option String
  s3_result_path : Option String
  s3_result_key : Option String
  s3_result_paths : Option (List String)
deriving DecidableEq, Repr

/-- Outcomes of the external collaborators one `handle_webhook` run touches.
Each S3 presign invocation may fail independently, so the in-loop calls and
the single fallback call are separate fields; the DB write tiers mirror the
`try`/`except` ladder in the router plus `DBClient`:
`richFullOk` = the first SQL of `update_upload_status_with_paths` commits,
`richFallbackOk` = its internal status+path fallback commits,
`oldFullOk` = the router-level fallback `update_upload_status` commits,
`oldFallbackOk` = that method's internal status-only fallback commits.
`pushResult` is `manager.send_result_to_client`: `some b` = returned `b`,
`none` = raised. -/
structure WebhookEnv where
  presign : String → Option String
  presign2 : String → Option String
  richFullOk : Bool
  richFallbackOk : Bool
  oldFullOk : Bool
  oldFallbackOk : Bool
  pushResult : Option Bool

/-- HTTP-level result of the webhook handler: `accepted` is the 202 response
body `{"message": ..., "result_urls": ...}`; `httpError` is a raised
`HTTPException`. -/
inductive WebhookResult where
  | accepted (message : String) (result_urls : List String)
  | httpError (status : Nat) (detail : String)
deriving DecidableEq, Repr

/-- Result-URL list of a webhook response, `none` on an HTTP error. -/
def WebhookResult.urls? : WebhookResult → Option (List String)
  | .accepted _ us => some us
  | .httpError _ _ => none

/-- True exactly on a 202 response. -/
def WebhookResult.isAccepted : WebhookResult → Bool
  | .accepted _ _ => true
  | .httpError _ _ => false

/-- The primary key: `data.get("s3_result_path") or data.get("s3_result_key")`. -/
def webhookS3Key (body : WebhookBody) : Option String :=
  pyOr body.s3_result_path body.s3_result_key

/-- Key normalization of the webhook (lines 202-205): start from
`s3_result_paths or []` and insert the primary key at the front only when it
is not already a member. -/
def webhookAllKeys (paths : Option (List String)) (s3_key : String) : List String :=
  let l := if pathsTruthy paths then paths.getD [] else []
  if s3_key ∈ l then l else s3_key :: l

/-- Embedding of `DBClient.update_upload_status_with_paths` applied to the
job's row when its first SQL statement commits: which columns are set depends
on which arguments are non-`None`. A job with no row is unchanged (the SQL
`UPDATE ... WHERE id = %s` matches nothing). -/
def update_upload_status_with_paths (rec : Option Record) (status : String)
    (path : Option String) (paths : Option String) : Option Record :=
  rec.map fun r =>
    match paths, path with
    | some ps, some p =>
        { r with status := some status, s3_result_path := some p,
                 s3_result_paths := some (.str ps) }
    | some ps, none =>
        { r with status := some status, s3_result_paths := some (.str ps) }
    | none, some p =>
        { r with status := some status, s3_result_path := some p }
    | none, none => { r with status := some status }

/-- Embedding of `DBClient.update_upload_status` applied to the job's row when
its first SQL statement commits. -/
def update_upload_status (rec : Option Record) (status : String)
    (path : Option String) : Option Record :=
  rec.map fun r =>
    match path with
    | some p => { r with status := some status, s3_result_path := some p }
    | none => { r with status := some status }

/-- Effect of the webhook's persistence step (lines 181-198) on the job's
row: the tiers of the two `try`/`except` ladders are attempted in order and
the first one that commits decides the write; if every tier fails, the
exception is caught by the outer `except` (only logged) and the row is left
unchanged. -/
def webhookPersist (env : WebhookEnv) (rec : Option Record) (s3_key : String)
    (pathsJson : Option String) : Option Record :=
  if env.richFullOk then
    update_upload_status_with_paths rec "COMPLETED" (some s3_key) pathsJson
  else if env.richFallbackOk then
    update_upload_status rec "COMPLETED" (some s3_key)
  else if env.oldFullOk then
    update_upload_status rec "COMPLETED" (some s3_key)
  else if env.oldFallbackOk then
    rec.map fun r => { r with status := some "COMPLETED" }
  else rec

/-- URL-generation step (lines 200-221): presign every normalized key,
skipping per-key failures; if nothing survives, make one fallback attempt on
the primary key alone (`presign2`); `none` means the handler raises 500. -/
def webhookUrls (env : WebhookEnv) (paths : Option (List String))
    (s3_key : String) : Option (List String) :=
  match (webhookAllKeys paths s3_key).filterMap env.presign with
  | [] =>
      match env.presign2 s3_key with
      | some u => some [u]
      | none => none
  | u :: us => some (u :: us)

/-- Embedding of `handle_webhook` (after signature verification): returns the
HTTP result together with the job's row after the persistence step. -/
def handle_webhook (env : WebhookEnv) (body : WebhookBody) (rec : Option Record) :
    WebhookResult × Option Record :=
  if pyTruthy body.job_id && pyTruthy (webhookS3Key body) then
    let s3_key := (webhookS3Key body).getD ""
    let pathsJson :=
      if pathsTruthy body.s3_result_paths then
        some (jsonDumps (body.s3_result_paths.getD []))
      else none
    let rec2 := webhookPersist env rec s3_key pathsJson
    match webhookUrls env body.s3_result_paths s3_key with
    | none => (.httpError 500 "Failed to generate presigned result URL(s)", rec2)
    | some urls =>
        if env.pushResult.getD false then
          (.accepted "Result pushed successfully." urls, rec2)
        else
          (.accepted "Result URL(s) generated." urls, rec2)
  else
    (.httpError 400 "job_id and s3_result_path required", rec)

/-! ## WebSocket registration handshake: `websocket_preconnect` (lines 27-158) -/

/-- Collaborators of the handshake, once the token has been extracted from
subprotocol / query param / cookie: `token` is the extracted raw credential,
`getUserId` is `auth_utils.get_user_id_from_token` (`none` covers both a
failed verification and a raised exception, which the handler maps to
`None`), `getJobOwner` is `DBClient.get_job_owner`. -/
structure WSEnv where
  token : Option String
  getUserId : String → Option String
  getJobOwner : String → Option String

/-- The first decoded JSON message from the client. -/
structure WSMessage where
  action : Option String
  job_id : Option String
deriving DecidableEq, Repr

/-- Observable outcome of the handshake: `closeError code err` means the
handler sent `{"error": err}` and closed with that code without calling
`manager.connect`; `registered jid uid` means `manager.connect(jid, ws, uid)`
ran and `{"status": "registered", "job_id": jid}` was sent. -/
inductive WSOutcome where
  | closeError (code : Nat) (error : String)
  | registered (job_id : String) (user_id : String)
deriving DecidableEq, Repr

/-- Identity resolution (lines 108-114): `get_user_id_from_token(token) if
token else None`, with any exception collapsed to `None`. -/
def resolveUserId (env : WSEnv) : Option String :=
  if pyTruthy env.token then env.getUserId (env.token.getD "") else none

/-- Embedding of `websocket_preconnect` from the decoded first message on. -/
def websocket_preconnect (env : WSEnv) (msg : WSMessage) : WSOutcome :=
  if msg.action = some "register" && pyTruthy msg.job_id then
    let job_id := msg.job_id.getD ""
    let user_id := resolveUserId env
    match env.getJobOwner job_id with
    | none => .closeError 1008 "job_not_found"
    | some owner =>
        if user_id = some owner then .registered job_id owner
        else .closeError 1008 "forbidden"
  else
    .closeError 1003 "expected register with job_id"

/-! ## Polling status endpoint: `get_result_status` (lines 251-299) -/

/-- Collaborators of the status endpoint: `presign` is
`S3Client.create_presigned_get_url` (`none` = raised and the key is skipped),
`jsonLoads` is `json.loads` on the stored `s3_result_paths` string (`none` =
raised, i.e. the string is not valid JSON). -/
structure QueryEnv where
  presign : String → Option String
  jsonLoads : String → Option (List String)

/-- Response of the status endpoint: `ok` is the JSON body
`{"job_id", "status", "result_url", "result_urls"}`; `httpError` a raised
`HTTPException`. -/
inductive QueryResult where
  | ok (job_id : String) (status : Option String) (result_url : Option String)
       (result_urls : Option (List String))
  | httpError (status : Nat) (detail : String)
deriving DecidableEq, Repr

/-- Result-URL list of a status response, `none` on an HTTP error. -/
def QueryResult.urls? : QueryResult → Option (List String)
  | .ok _ _ _ r => r
  | .httpError _ _ => none

/-- Key reconstruction of the status endpoint (lines 273-283): prefer a
truthy `s3_result_paths` (JSON-decoding a stored string, and keeping the
whole string as a single key when decoding raises), else fall back to a
truthy `s3_result_path`. -/
def queryKeys (env : QueryEnv) (s3_paths : Option StoredPaths)
    (s3_key : Option String) : Option (List String) :=
  if storedTruthy s3_paths then
    match s3_paths with
    | some (.str s) =>
        match env.jsonLoads s with
        | some l => some l
        | none => some [s]
    | some (.list l) => some l
    | none => none
  else if pyTruthy s3_key then some [s3_key.getD ""]
  else none

/-- Embedding of `get_result_status`: `db` is the outcome of
`DBClient.get_upload_record` (`Except.error` = raised, mapped to 500). -/
def get_result_status (env : QueryEnv) (job_id : String)
    (db : Except Unit (Option Record)) : QueryResult :=
  if job_id = "" then .httpError 400 "job_id is required"
  else
    match db with
    | .error _ => .httpError 500 "internal error"
    | .ok none => .httpError 404 "job not found"
    | .ok (some rec) =>
        let result_urls : Option (List String) :=
          if rec.status = some "COMPLETED" then
            match queryKeys env rec.s3_result_paths rec.s3_result_path with
            | some (k :: ks) =>
                match (k :: ks).filterMap env.presign with
                | [] => none
                | u :: us => some (u :: us)
            | _ => none
          else none
        let single :=
          match result_urls with
          | some (u :: _) => some u
          | _ => none
        .ok job_id rec.status single result_urls

/-- In-memory WebSocket registry (`manager.active_connections`): job_id
mapped to an admitted connection's owning user. Only the webhook's push and
the handshake touch it; the status endpoint's body never references it. -/
structure Registry where
  active_connections : List (String × String)
deriving DecidableEq, Repr

/-- The status endpoint as it runs inside the server process, with the
ambient registry in scope: the handler body reads only the DB record and the
S3 client, so the registry is threaded through untouched. -/
def get_result_status_handler (reg : Registry) (env : QueryEnv)
    (job_id : String) (db : Except Unit (Option Record)) : QueryResult × Registry :=
  (get_result_status env job_id db, reg)

/-- The canonical response for a computed status and generated URL list:
`result_urls` is the list when nonempty and null otherwise, `result_url` its
first element. -/
def queryResponseFor (job_id : String) (status : Option String)
    (urls : List String) : QueryResult :=
  match urls with
  | [] => .ok job_id status none none
  | u :: us => .ok job_id status (some u) (some (u :: us))

/-! ## Concrete instances used by counterexamples and witnesses -/

/-- Webhook env whose external calls all succeed except the DB writes: every
persistence tier fails. -/
def c2Env : WebhookEnv where
  presign := fun k => some ("https://s3.example/" ++ k)
  presign2 := fun _ => none
  richFullOk := false
  richFallbackOk := false
  oldFullOk := false
  oldFallbackOk := false
  pushResult := some false

/-- A callback naming a job and a primary result key. -/
def c2Body : WebhookBody where
  job_id := some "J1"
  s3_result_path := some "out/J1.zip"
  s3_result_key := none
  s3_result_paths := none

/-- A pending row for job `J1`. -/
def c2Rec : Option Record :=
  some { user_id := some "U1", status := some "PENDING",
         s3_result_path := none, s3_result_paths := none }

/-- Webhook env with a working presigner and a committing rich DB write. -/
def c3Env : WebhookEnv where
  presign := fun k => some ("u/" ++ k)
  presign2 := fun _ => none
  richFullOk := true
  richFallbackOk := false
  oldFullOk := false
  oldFallbackOk := false
  pushResult := some false

/-- A callback whose list already contains the primary key, not in front. -/
def c3Body : WebhookBody where
  job_id := some "J3"
  s3_result_path := some "a"
  s3_result_key := none
  s3_result_paths := some ["b", "a"]

/-- A pending row for job `J3`. -/
def c3Rec : Record where
  user_id := some "U3"
  status := some "PENDING"
  s3_result_path := none
  s3_result_paths := none

/-- Webhook env for the C3 witness run. -/
def c3wEnv : WebhookEnv where
  presign := fun k => some ("u/" ++ k)
  presign2 := fun _ => none
  richFullOk := true
  richFallbackOk := false
  oldFullOk := false
  oldFallbackOk := false
  pushResult := some false

/-- Query env whose JSON decoder inverts `jsonDumps` on the stored list. -/
def c3wQEnv : QueryEnv where
  presign := fun k => some ("u/" ++ k)
  jsonLoads := fun s => if s = jsonDumps ["a", "b"] then some ["a", "b"] else none

/-- The spec's example callback: list `["a", "b"]`, primary `"a"`. -/
def c3wBody : WebhookBody where
  job_id := some "J"
  s3_result_path := some "a"
  s3_result_key := none
  s3_result_paths := some ["a", "b"]

/-- A pending row for job `J`. -/
def c3wRec : Record where
  user_id := some "U"
  status := some "PENDING"
  s3_result_path := none
  s3_result_paths := none

/-- Webhook env whose collaborators all succeed. -/
def c4Env : WebhookEnv where
  presign := fun k => some ("https://s3.example/" ++ k)
  presign2 := fun k => some ("https://s3.example/" ++ k)
  richFullOk := true
  richFallbackOk := true
  oldFullOk := true
  oldFallbackOk := true
  pushResult := some true

/-- A callback with a job id and a nonempty list field but no single
location field. -/
def c4Body : WebhookBody where
  job_id := some "J2"
  s3_result_path := none
  s3_result_key := none
  s3_result_paths := some ["r/a.zip"]

/-- A pending row for job `J2`. -/
def c4Rec : Option Record :=
  some { user_id := some "U2", status := some "PENDING",
         s3_result_path := none, s3_result_paths := none }

/-- Webhook env for the C1 witness: URL generation succeeds. -/
def c1wEnv : WebhookEnv where
  presign := fun k => some ("u/" ++ k)
  presign2 := fun _ => none
  richFullOk := true
  richFallbackOk := false
  oldFullOk := false
  oldFallbackOk := false
  pushResult := some false

/-- A callback with one primary key. -/
def c1wBody : WebhookBody where
  job_id := some "JW"
  s3_result_path := some "out.zip"
  s3_result_key := none
  s3_result_paths := none

/-- A pending row for job `JW`. -/
def c1wRec : Option Record :=
  some { user_id := some "UW", status := some "PENDING",
         s3_result_path := none, s3_result_paths := none }

/-- Handshake env whose owner lookup finds no record for any job, with a
credential that resolves fine. -/
def c5wEnv : WSEnv where
  token := some "tok-A"
  getUserId := fun _ => some "UA"
  getJobOwner := fun _ => none

/-- A well-formed registration message. -/
def c5wMsg : WSMessage where
  action := some "register"
  job_id := some "J5"

/-- Handshake env where job `J6` is owned by `UB` but the credential
resolves to `UA`. -/
def c6wEnv : WSEnv where
  token := some "tok-A"
  getUserId := fun _ => some "UA"
  getJobOwner := fun j => if j = "J6" then some "UB" else none

/-- A well-formed registration message for job `J6`. -/
def c6wMsg : WSMessage where
  action := some "register"
  job_id := some "J6"

/-- Query env with a working presigner. -/
def c7wEnv : QueryEnv where
  presign := fun k => some ("u/" ++ k)
  jsonLoads := fun _ => none

/-- A completed row whose list column holds a decoded list. -/
def c7wRec : Record where
  user_id := some "U7"
  status := some "COMPLETED"
  s3_result_path := some "p.zip"
  s3_result_paths := some (.list ["a", "b"])

/-- Webhook env whose in-loop presigner always fails but whose fallback
invocation succeeds. -/
def c9wEnv : WebhookEnv where
  presign := fun _ => none
  presign2 := fun k => some ("f/" ++ k)
  richFullOk := true
  richFallbackOk := false
  oldFullOk := false
  oldFallbackOk := false
  pushResult := some false

/-- A callback with one primary key. -/
def c9wBody : WebhookBody where
  job_id := some "J9"
  s3_result_path := some "k.zip"
  s3_result_key := none
  s3_result_paths := none

/-- A pending row for job `J9`. -/
def c9wRec : Option Record :=
  some { user_id := some "U9", status := some "PENDING",
         s3_result_path := none, s3_result_paths := none }

/-- Query env whose JSON decoder always raises. -/
def c10wEnv : QueryEnv where
  presign := fun k => some ("u/" ++ k)
  jsonLoads := fun _ => none

/-- A completed row whose list column holds a non-JSON string. -/
def c10wRec : Record where
  user_id := some "UX"
  status := some "COMPLETED"
  s3_result_path := some "primary.zip"
  s3_result_paths := some (.str "not json")

/-! ## Helper lemmas -/

/-- On a completed record whose key reconstruction yields a nonempty key
list, the status endpoint answers with the canonical response for the
presigned survivors of that list. -/
theorem get_result_status_completed_keys (env : QueryEnv) (jid : String)
    (rec : Record) (hjid : jid ≠ "") (hst : rec.status = some "COMPLETED")
    (k : String) (ks : List String)
    (hkeys : queryKeys env rec.s3_result_paths rec.s3_result_path = some (k :: ks)) :
    get_result_status env jid (.ok (some rec)) =
      queryResponseFor jid rec.status ((k :: ks).filterMap env.presign) := by
  unfold get_result_status
  rw [if_neg hjid]
  simp only [hst, hkeys]
  cases h : (k :: ks).filterMap env.presign <;> simp [queryResponseFor, h, hst]

/-- The serialized list column is never the empty string. -/
theorem jsonDumps_ne_empty (l : List String) : jsonDumps l ≠ "" := by
  intro h
  have h2 := congrArg String.length h
  rw [jsonDumps, String.length_append, String.length_append] at h2
  have ha : ("[" : String).length = 1 := rfl
  have hb : ("]" : String).length = 1 := rfl
  have hc : ("" : String).length = 0 := rfl
  omega

/-- Shape of a webhook run once the body validation passed. -/
theorem handle_webhook_valid (env : WebhookEnv) (body : WebhookBody)
    (rec : Option Record)
    (hc : (pyTruthy body.job_id && pyTruthy (webhookS3Key body)) = true) :
    handle_webhook env body rec =
      ((match webhookUrls env body.s3_result_paths ((webhookS3Key body).getD "") with
        | none => WebhookResult.httpError 500 "Failed to generate presigned result URL(s)"
        | some urls =>
            if env.pushResult.getD false then
              WebhookResult.accepted "Result pushed successfully." urls
            else
              WebhookResult.accepted "Result URL(s) generated." urls),
       webhookPersist env rec ((webhookS3Key body).getD "")
         (if pathsTruthy body.s3_result_paths then
            some (jsonDumps (body.s3_result_paths.getD []))
          else none)) := by
  unfold handle_webhook
  rw [if_pos hc]
  cases h : webhookUrls env body.s3_result_paths ((webhookS3Key body).getD "") <;>
    simp [h]
  cases env.pushResult.getD false <;> simp

/-- Shape of a webhook run once validation passed and URL generation
produced a list. -/
theorem handle_webhook_push_cases (env : WebhookEnv) (body : WebhookBody)
    (rec : Option Record) (us : List String)
    (hc : (pyTruthy body.job_id && pyTruthy (webhookS3Key body)) = true)
    (hus : webhookUrls env body.s3_result_paths ((webhookS3Key body).getD "") =
             some us) :
    handle_webhook env body rec =
      ((if env.pushResult.getD false then
          WebhookResult.accepted "Result pushed successfully." us
        else
          WebhookResult.accepted "Result URL(s) generated." us),
       webhookPersist env rec ((webhookS3Key body).getD "")
         (if pathsTruthy body.s3_result_paths then
            some (jsonDumps (body.s3_result_paths.getD []))
          else none)) := by
  rw [handle_webhook_valid env body rec hc, hus]

/-! ## Claim theorems -/

/-- C8: the Status Query's response is a function of the persisted record
and the URL generator alone; executions under any two registry states give
identical responses, and both coincide with the registry-free read path. -/
theorem status_query_independent_of_registry (reg1 reg2 : Registry)
    (env : QueryEnv) (jid : String) (db : Except Unit (Option Record)) :
    (get_result_status_handler reg1 env jid db).1 =
      (get_result_status_handler reg2 env jid db).1 ∧
    (get_result_status_handler reg1 env jid db).1 = get_result_status env jid db :=
  ⟨rfl, rfl⟩

/-- C5: a registration handshake for a job with no persisted owner closes
with the policy-violation code 1008 and the "job_not_found" payload —
distinguishable from the "forbidden" payload — and never registers a
connection, whatever the credential resolves to. -/
theorem ws_unknown_job_not_found (env : WSEnv) (msg : WSMessage) (jid : String)
    (hact : msg.action = some "register") (hjid : msg.job_id = some jid)
    (hne : jid ≠ "") (hown : env.getJobOwner jid = none) :
    websocket_preconnect env msg = .closeError 1008 "job_not_found" ∧
    (∀ j u, websocket_preconnect env msg ≠ .registered j u) ∧
    "job_not_found" ≠ "forbidden" := by
  have h1 : websocket_preconnect env msg = .closeError 1008 "job_not_found" := by
    unfold websocket_preconnect
    simp [hact, hjid, pyTruthy, hne, hown]
  exact ⟨h1, fun j u h => by rw [h1] at h; exact WSOutcome.noConfusion h, by decide⟩

/-- C6: against a job with a persisted owner, the handshake registers the
connection exactly when the credential resolves to that owner; otherwise
(absent or different identity) it closes with 1008 and the generic
"forbidden" payload and `manager.connect` is never reached. -/
theorem ws_owner_match_required (env : WSEnv) (msg : WSMessage)
    (jid owner : String) (hact : msg.action = some "register")
    (hjid : msg.job_id = some jid) (hne : jid ≠ "")
    (hown : env.getJobOwner jid = some owner) :
    (resolveUserId env = some owner →
       websocket_preconnect env msg = .registered jid owner) ∧
    (resolveUserId env ≠ some owner →
       websocket_preconnect env msg = .closeError 1008 "forbidden" ∧
       ∀ j u, websocket_preconnect env msg ≠ .registered j u) := by
  constructor
  · intro huid
    unfold websocket_preconnect
    simp [hact, hjid, pyTruthy, hne, hown, huid]
  · intro huid
    have h1 : websocket_preconnect env msg = .closeError 1008 "forbidden" := by
      unfold websocket_preconnect
      simp [hact, hjid, pyTruthy, hne, hown, huid]
    exact ⟨h1, fun j u h => by rw [h1] at h; exact WSOutcome.noConfusion h⟩

/-- C7: on a persisted record, the Status Query returns no URLs (both
fields null) unless the status is COMPLETED; when it is, the key list
prefers the richer list field (decoded from JSON when stored as a string),
falls back to the single primary field when the list is absent, presigns
each key skipping per-key failures, nulls the URL set when none survive,
and surfaces the first URL as the singular `result_url`. -/
theorem status_reconstruction (env : QueryEnv) (jid : String) (rec : Record)
    (hjid : jid ≠ "") :
    (rec.status ≠ some "COMPLETED" →
        get_result_status env jid (.ok (some rec)) = .ok jid rec.status none none) ∧
    (rec.status = some "COMPLETED" →
      (∀ l, rec.s3_result_paths = some (.list l) → l ≠ [] →
          get_result_status env jid (.ok (some rec)) =
            queryResponseFor jid rec.status (l.filterMap env.presign)) ∧
      (∀ s l, rec.s3_result_paths = some (.str s) → s ≠ "" →
          env.jsonLoads s = some l → l ≠ [] →
          get_result_status env jid (.ok (some rec)) =
            queryResponseFor jid rec.status (l.filterMap env.presign)) ∧
      (∀ k, rec.s3_result_paths = none → rec.s3_result_path = some k → k ≠ "" →
          get_result_status env jid (.ok (some rec)) =
            queryResponseFor jid rec.status ([k].filterMap env.presign))) := by
  constructor
  · intro hst
    unfold get_result_status
    rw [if_neg hjid]
    simp [hst]
  · intro hst
    refine ⟨?_, ?_, ?_⟩
    · intro l hl hlne
      cases l with
      | nil => exact absurd rfl hlne
      | cons m ms =>
          refine get_result_status_completed_keys env jid rec hjid hst m ms ?_
          unfold queryKeys
          simp [hl, storedTruthy]
    · intro s l hs hsne hdec hlne
      cases l with
      | nil => exact absurd rfl hlne
      | cons m ms =>
          refine get_result_status_completed_keys env jid rec hjid hst m ms ?_
          unfold queryKeys
          simp [hs, storedTruthy, hsne, hdec]
    · intro k hps hk hkne
      refine get_result_status_completed_keys env jid rec hjid hst k [] ?_
      unfold queryKeys
      simp [hps, storedTruthy, hk, pyTruthy, hkne]

/-- C10: a COMPLETED record whose stored list column is a string that fails
to decode as JSON does not fail the Status Query; the whole string is kept
as the single key (taking precedence over the stored primary field) and
presigning is attempted on it. -/
theorem status_undecodable_paths_single_key (env : QueryEnv) (jid s : String)
    (rec : Record) (hjid : jid ≠ "") (hst : rec.status = some "COMPLETED")
    (hpaths : rec.s3_result_paths = some (.str s)) (hs : s ≠ "")
    (hdec : env.jsonLoads s = none) :
    get_result_status env jid (.ok (some rec)) =
      queryResponseFor jid rec.status ([s].filterMap env.presign) := by
  refine get_result_status_completed_keys env jid rec hjid hst s [] ?_
  unfold queryKeys
  simp [hpaths, storedTruthy, hs, hdec]

/-- C1: once a webhook run reaches the push step (validation passed,
persistence attempted, at least one URL generated — i.e. the run responded
202), every push outcome gives the same 202 response up to the message
text: the URL list and the persisted row never change, a push exception is
handled exactly like a `false` return, and the two possible messages are
pinned. -/
theorem webhook_push_never_changes_http_success (env : WebhookEnv)
    (body : WebhookBody) (rec : Option Record) (m : String) (urls : List String)
    (hacc : (handle_webhook env body rec).1 = .accepted m urls) :
    (∀ p : Option Bool,
       ((handle_webhook { env with pushResult := p } body rec).1).urls? = some urls ∧
       (handle_webhook { env with pushResult := p } body rec).2 =
         (handle_webhook env body rec).2) ∧
    handle_webhook { env with pushResult := none } body rec =
      handle_webhook { env with pushResult := some false } body rec ∧
    (handle_webhook { env with pushResult := some true } body rec).1 =
      .accepted "Result pushed successfully." urls ∧
    (handle_webhook { env with pushResult := some false } body rec).1 =
      .accepted "Result URL(s) generated." urls := by
  have hc : (pyTruthy body.job_id && pyTruthy (webhookS3Key body)) = true := by
    by_contra hne
    rw [Bool.not_eq_true] at hne
    unfold handle_webhook at hacc
    rw [if_neg (by simp [hne])] at hacc
    simp at hacc
  obtain ⟨us, hus⟩ :
      ∃ us, webhookUrls env body.s3_result_paths ((webhookS3Key body).getD "") =
              some us := by
    cases h : webhookUrls env body.s3_result_paths ((webhookS3Key body).getD "") with
    | none =>
        rw [handle_webhook_valid env body rec hc] at hacc
        simp [h] at hacc
    | some us => exact ⟨us, rfl⟩
  have hurls : us = urls := by
    rw [handle_webhook_push_cases env body rec us hc hus] at hacc
    cases hb : env.pushResult.getD false <;> rw [hb] at hacc <;> simp at hacc <;>
      exact hacc.2
  subst hurls
  refine ⟨fun p => ?_, ?_, ?_, ?_⟩
  · rw [handle_webhook_push_cases { env with pushResult := p } body rec us hc hus,
        handle_webhook_push_cases env body rec us hc hus]
    constructor
    · cases hb : p.getD false <;> simp [hb, WebhookResult.urls?]
    · rfl
  · rw [handle_webhook_push_cases { env with pushResult := none } body rec us hc hus,
        handle_webhook_push_cases { env with pushResult := some false } body rec us hc
          hus]
    rfl
  · rw [handle_webhook_push_cases { env with pushResult := some true } body rec us hc
        hus]
    rfl
  · rw [handle_webhook_push_cases { env with pushResult := some false } body rec us hc
        hus]
    rfl

/-- C2 counterexample: a callback whose every persistence tier fails —
including the minimal status-plus-primary write, so the row is left
untouched — still returns the 202 body with the generated URL, instead of
failing the request as the claim demands. -/
theorem webhook_202_despite_total_write_failure :
    c2Env.richFullOk = false ∧ c2Env.richFallbackOk = false ∧
    c2Env.oldFullOk = false ∧ c2Env.oldFallbackOk = false ∧
    handle_webhook c2Env c2Body c2Rec =
      (.accepted "Result URL(s) generated." ["https://s3.example/out/J1.zip"],
       c2Rec) :=
  ⟨rfl, rfl, rfl, rfl, rfl⟩

/-- C2 amended: the persistence tiers are attempted richer-first with
fallbacks, but no persistence failure — not even of the minimal write —
ever fails the request: the HTTP response is independent of every write
tier's outcome, and when all tiers fail the row is simply left unchanged. -/
theorem webhook_persistence_never_fails_request (env : WebhookEnv)
    (body : WebhookBody) (rec : Option Record) (m : String) (urls : List String)
    (hacc : (handle_webhook env body rec).1 = .accepted m urls) :
    (∀ b1 b2 b3 b4,
       (handle_webhook { env with
                         richFullOk := b1, richFallbackOk := b2,
                         oldFullOk := b3, oldFallbackOk := b4 } body rec).1 =
         (handle_webhook env body rec).1) ∧
    (env.richFullOk = false → env.richFallbackOk = false →
       env.oldFullOk = false → env.oldFallbackOk = false →
       (handle_webhook env body rec).2 = rec) := by
  have hc : (pyTruthy body.job_id && pyTruthy (webhookS3Key body)) = true := by
    by_contra hne
    rw [Bool.not_eq_true] at hne
    unfold handle_webhook at hacc
    rw [if_neg (by simp [hne])] at hacc
    simp at hacc
  constructor
  · intro b1 b2 b3 b4
    rw [handle_webhook_valid { env with
                               richFullOk := b1, richFallbackOk := b2,
                               oldFullOk := b3, oldFallbackOk := b4 } body rec hc,
        handle_webhook_valid env body rec hc]
    rfl
  · intro h1 h2 h3 h4
    rw [handle_webhook_valid env body rec hc]
    show webhookPersist env rec _ _ = rec
    unfold webhookPersist
    simp [h1, h2, h3, h4]

/-- C2 witness: a rich-write success changes nothing about the response,
and with every tier failing the row is unchanged while the request still
succeeded. -/
theorem webhook_persistence_never_fails_request_witness :
    (handle_webhook { c2Env with
                      richFullOk := true, richFallbackOk := false,
                      oldFullOk := false, oldFallbackOk := false } c2Body c2Rec).1 =
      (handle_webhook c2Env c2Body c2Rec).1 ∧
    (handle_webhook c2Env c2Body c2Rec).2 = c2Rec :=
  ⟨(webhook_persistence_never_fails_request c2Env c2Body c2Rec
      "Result URL(s) generated." ["https://s3.example/out/J1.zip"] rfl).1
      true false false false,
   (webhook_persistence_never_fails_request c2Env c2Body c2Rec
      "Result URL(s) generated." ["https://s3.example/out/J1.zip"] rfl).2
      rfl rfl rfl rfl⟩

/-- C3 counterexample: a callback with `s3_result_paths = ["b", "a"]` and
primary `"a"` is normalized to `["b", "a"]` — the primary is not first
(the handler only prepends it when absent from the list), so the delivered
URL list starts with the non-primary key. -/
theorem webhook_normalization_not_primary_first :
    webhookAllKeys c3Body.s3_result_paths "a" = ["b", "a"] ∧
    (handle_webhook c3Env c3Body (some c3Rec)).1 =
      .accepted "Result URL(s) generated." ["u/b", "u/a"] ∧
    "b" ≠ "a" :=
  ⟨rfl, rfl, by decide⟩

/-- C3 amended: the handler prepends the primary key only when it is not
already a member of the list (so the result is primary-first and
deduplicated against the list only in that case, and duplicates inside the
list survive); the spec's own example `["a", "b"]` with primary `"a"` does
yield the primary-first deduplicated pair; and when the primary is a member
of the list, the rich write committed, and the stored JSON round-trips, the
URL list delivered by push equals the one the Status Query reconstructs
from the persisted row. -/
theorem webhook_normalization_and_push_query_agreement
    (env : WebhookEnv) (qenv : QueryEnv) (body : WebhookBody) (rec : Record)
    (paths : List String) (jid keyv u : String) (us : List String)
    (hj : body.job_id = some jid) (hjne : jid ≠ "")
    (hk : webhookS3Key body = some keyv) (hkne : keyv ≠ "")
    (hp : body.s3_result_paths = some paths) (hmem : keyv ∈ paths)
    (hrich : env.richFullOk = true)
    (hloads : qenv.jsonLoads (jsonDumps paths) = some paths)
    (hpre : qenv.presign = env.presign)
    (hurls : paths.filterMap env.presign = u :: us) :
    (∀ (ps : List String) (k : String),
        webhookAllKeys (some ps) k = if k ∈ ps then ps else k :: ps) ∧
    webhookAllKeys (some ["a", "b"]) "a" = ["a", "b"] ∧
    (handle_webhook env body (some rec)).1.urls? = some (u :: us) ∧
    (get_result_status qenv jid
        (.ok (handle_webhook env body (some rec)).2)).urls? = some (u :: us) := by
  have hgen : ∀ (ps : List String) (k : String),
      webhookAllKeys (some ps) k = if k ∈ ps then ps else k :: ps := by
    intro ps k
    cases ps with
    | nil => simp [webhookAllKeys, pathsTruthy]
    | cons a l => simp [webhookAllKeys, pathsTruthy]
  have hpne : paths ≠ [] := List.ne_nil_of_mem hmem
  have hc : (pyTruthy body.job_id && pyTruthy (webhookS3Key body)) = true := by
    simp [hj, hk, pyTruthy, hjne, hkne]
  have hgd : (webhookS3Key body).getD "" = keyv := by rw [hk]; rfl
  have hak : webhookAllKeys body.s3_result_paths keyv = paths := by
    rw [hp, hgen]
    simp [hmem]
  have hus : webhookUrls env body.s3_result_paths ((webhookS3Key body).getD "") =
      some (u :: us) := by
    rw [hgd]
    unfold webhookUrls
    rw [hak, hurls]
  have e := handle_webhook_push_cases env body (some rec) (u :: us) hc hus
  have hrec2 : (handle_webhook env body (some rec)).2 =
      some { rec with
             status := some "COMPLETED", s3_result_path := some keyv,
             s3_result_paths := some (.str (jsonDumps paths)) } := by
    rw [e]
    show webhookPersist env (some rec) _ _ = _
    rw [hgd, hp]
    unfold webhookPersist
    rw [if_pos hrich]
    simp [pathsTruthy, hpne, update_upload_status_with_paths]
  refine ⟨hgen, by rw [hgen]; simp, ?_, ?_⟩
  · rw [e]
    cases hb : env.pushResult.getD false <;> simp [hb, WebhookResult.urls?]
  · rw [hrec2]
    obtain ⟨k, ks, hpaths⟩ : ∃ k ks, paths = k :: ks := by
      cases paths with
      | nil => exact absurd rfl hpne
      | cons k ks => exact ⟨k, ks, rfl⟩
    have hq := get_result_status_completed_keys qenv jid
      { rec with
        status := some "COMPLETED", s3_result_path := some keyv,
        s3_result_paths := some (.str (jsonDumps paths)) } hjne rfl k ks ?_
    · rw [hq, ← hpaths, hpre, hurls]
      simp [queryResponseFor, QueryResult.urls?]
    · show queryKeys qenv (some (.str (jsonDumps paths))) (some keyv) = some (k :: ks)
      have hst : storedTruthy (some (.str (jsonDumps paths))) = true := by
        simp [storedTruthy, jsonDumps_ne_empty paths]
      unfold queryKeys
      rw [hst]
      simp [hloads]
      exact hpaths

/-- C3 witness: the spec's example — list `["a", "b"]`, primary `"a"` —
gives the same two-element URL list through the webhook push path and
through the Status Query on the persisted row. -/
theorem webhook_normalization_and_push_query_agreement_witness :
    (handle_webhook c3wEnv c3wBody (some c3wRec)).1.urls? = some ["u/a", "u/b"] ∧
    (get_result_status c3wQEnv "J"
        (.ok (handle_webhook c3wEnv c3wBody (some c3wRec)).2)).urls? =
      some ["u/a", "u/b"] :=
  ⟨(webhook_normalization_and_push_query_agreement c3wEnv c3wQEnv c3wBody c3wRec
      ["a", "b"] "J" "a" "u/a" ["u/b"] rfl (by decide) rfl (by decide) rfl
      (by decide) rfl rfl rfl rfl).2.2.1,
   (webhook_normalization_and_push_query_agreement c3wEnv c3wQEnv c3wBody c3wRec
      ["a", "b"] "J" "a" "u/a" ["u/b"] rfl (by decide) rfl (by decide) rfl
      (by decide) rfl rfl rfl rfl).2.2.2⟩

/-- C4 counterexample: a verified callback naming a job id and a nonempty
`s3_result_paths` list, but neither `s3_result_path` nor `s3_result_key`,
is rejected with 400 instead of being accepted as the claim states. -/
theorem webhook_list_only_rejected :
    pathsTruthy c4Body.s3_result_paths = true ∧
    c4Body.job_id = some "J2" ∧
    handle_webhook c4Env c4Body c4Rec =
      (.httpError 400 "job_id and s3_result_path required", c4Rec) :=
  ⟨rfl, rfl, rfl⟩

/-- C4 amended: the callback is rejected with 400 exactly when the job id
is missing/empty or neither single-location field (`s3_result_path`,
`s3_result_key`) holds a nonempty value; the list field alone never makes a
callback acceptable. -/
theorem webhook_400_iff_missing_single_key (env : WebhookEnv)
    (body : WebhookBody) (rec : Option Record) :
    (handle_webhook env body rec).1 =
        .httpError 400 "job_id and s3_result_path required" ↔
      ¬(pyTruthy body.job_id = true ∧ pyTruthy (webhookS3Key body) = true) := by
  constructor
  · intro h hcond
    have hc : (pyTruthy body.job_id && pyTruthy (webhookS3Key body)) = true := by
      simp [hcond.1, hcond.2]
    rw [handle_webhook_valid env body rec hc] at h
    cases hu : webhookUrls env body.s3_result_paths ((webhookS3Key body).getD "") with
    | none => rw [hu] at h; simp at h
    | some us =>
        rw [hu] at h
        cases hb : env.pushResult.getD false <;> rw [hb] at h <;> simp at h
  · intro h
    have hc : (pyTruthy body.job_id && pyTruthy (webhookS3Key body)) = false := by
      cases ha : pyTruthy body.job_id <;> cases hb : pyTruthy (webhookS3Key body) <;>
        simp_all
    unfold handle_webhook
    rw [if_neg (by simp [hc])]

/-- C9: each normalized key is presigned and an individual failure only
skips that key; when every in-loop attempt fails, exactly one best-effort
attempt on the primary key decides the outcome — success yields a 202 with
that single URL, failure raises the 500; whenever the loop produced at
least one URL the callback succeeds with that list. -/
theorem webhook_presign_fallback (env : WebhookEnv) (body : WebhookBody)
    (rec : Option Record) (keyv : String)
    (hj : pyTruthy body.job_id = true)
    (hk : webhookS3Key body = some keyv) (hkne : keyv ≠ "") :
    (∀ u us,
       (webhookAllKeys body.s3_result_paths keyv).filterMap env.presign = u :: us →
       (handle_webhook env body rec).1.urls? = some (u :: us)) ∧
    ((webhookAllKeys body.s3_result_paths keyv).filterMap env.presign = [] →
       (∀ u, env.presign2 keyv = some u →
          (handle_webhook env body rec).1.urls? = some [u]) ∧
       (env.presign2 keyv = none →
          (handle_webhook env body rec).1 =
            .httpError 500 "Failed to generate presigned result URL(s)")) := by
  have hc : (pyTruthy body.job_id && pyTruthy (webhookS3Key body)) = true := by
    rw [hj, hk]
    simp [pyTruthy, hkne]
  have hgd : (webhookS3Key body).getD "" = keyv := by rw [hk]; rfl
  constructor
  · intro u us hloop
    have hus : webhookUrls env body.s3_result_paths ((webhookS3Key body).getD "") =
        some (u :: us) := by
      rw [hgd]
      unfold webhookUrls
      rw [hloop]
    rw [handle_webhook_push_cases env body rec (u :: us) hc hus]
    cases hb : env.pushResult.getD false <;> simp [hb, WebhookResult.urls?]
  · intro hloop
    constructor
    · intro u hfb
      have hus : webhookUrls env body.s3_result_paths ((webhookS3Key body).getD "") =
          some [u] := by
        rw [hgd]
        unfold webhookUrls
        rw [hloop, hfb]
      rw [handle_webhook_push_cases env body rec [u] hc hus]
      cases hb : env.pushResult.getD false <;> simp [hb, WebhookResult.urls?]
    · intro hfb
      have hus : webhookUrls env body.s3_result_paths ((webhookS3Key body).getD "") =
          none := by
        rw [hgd]
        unfold webhookUrls
        rw [hloop, hfb]
      rw [handle_webhook_valid env body rec hc]
      simp [hus]

/-! ## Witnesses -/

/-- C1 witness at a concrete accepted callback: a `true` push only changes
the message, and a push exception behaves as `false`. -/
theorem webhook_push_never_changes_http_success_witness :
    (handle_webhook { c1wEnv with pushResult := some true } c1wBody c1wRec).1 =
      .accepted "Result pushed successfully." ["u/out.zip"] ∧
    handle_webhook { c1wEnv with pushResult := none } c1wBody c1wRec =
      handle_webhook { c1wEnv with pushResult := some false } c1wBody c1wRec :=
  ⟨(webhook_push_never_changes_http_success c1wEnv c1wBody c1wRec
      "Result URL(s) generated." ["u/out.zip"] rfl).2.2.1,
   (webhook_push_never_changes_http_success c1wEnv c1wBody c1wRec
      "Result URL(s) generated." ["u/out.zip"] rfl).2.1⟩

/-- C9 witness: all in-loop presigns fail, the single fallback attempt on
the primary key succeeds, and the callback answers with that one URL. -/
theorem webhook_presign_fallback_witness :
    (handle_webhook c9wEnv c9wBody c9wRec).1.urls? = some ["f/k.zip"] :=
  ((webhook_presign_fallback c9wEnv c9wBody c9wRec "k.zip" rfl rfl
      (by decide)).2 rfl).1 "f/k.zip" rfl

/-- C5 witness at a concrete handshake. -/
theorem ws_unknown_job_not_found_witness :
    websocket_preconnect c5wEnv c5wMsg = .closeError 1008 "job_not_found" ∧
    (∀ j u, websocket_preconnect c5wEnv c5wMsg ≠ .registered j u) ∧
    "job_not_found" ≠ "forbidden" :=
  ws_unknown_job_not_found c5wEnv c5wMsg "J5" rfl rfl (by decide) rfl

/-- C6 witness at a concrete handshake with a mismatched identity. -/
theorem ws_owner_match_required_witness :
    websocket_preconnect c6wEnv c6wMsg = .closeError 1008 "forbidden" ∧
    ∀ j u, websocket_preconnect c6wEnv c6wMsg ≠ .registered j u :=
  (ws_owner_match_required c6wEnv c6wMsg "J6" "UB" rfl rfl (by decide) rfl).2
    (by decide)

/-- C7 witness on a concrete completed record with a decoded list. -/
theorem status_reconstruction_witness :
    get_result_status c7wEnv "J" (.ok (some c7wRec)) =
      queryResponseFor "J" c7wRec.status (["a", "b"].filterMap c7wEnv.presign) :=
  ((status_reconstruction c7wEnv "J" c7wRec (by decide)).2 rfl).1 ["a", "b"] rfl
    (by decide)

/-- C10 witness on a concrete record with an undecodable list column. -/
theorem status_undecodable_paths_single_key_witness :
    get_result_status c10wEnv "JX" (.ok (some c10wRec)) =
      queryResponseFor "JX" c10wRec.status (["not json"].filterMap c10wEnv.presign) :=
  status_undecodable_paths_single_key c10wEnv "JX" "not json" c10wRec
    (by decide) rfl rfl (by decide) rfl

end GolfSwing
